import Mathlib

/-!
Verification development for the morpheus-gcp-price-sync repository.

The Python sources are shallowly embedded as executable Lean definitions:

* `gcp-price-sync-final.py` — SKU normalization (`normalize_sku`), the broad
  bucket categorization (`categorize_sku`), price-type classification
  (`classify_price_type` / `extract_machine_family`), the pricing-entry /
  price-code construction (`create_pricing_entry` / `morpheus_price_code`),
  payload validation (`validate_price_payload`), the component price-set
  aggregation (`create_component_price_sets`), the plan-mapping id union
  (`map_to_plans_final_ids`) and the create-or-skip sync loop
  (`sync_prices_loop`).
* `create_prices.py` — the price-code construction (`create_price_data_code`),
  the retrying HTTP client (`make_request_run`) and the main create-or-skip
  loop (`create_prices_main_loop`).
* `discover_gcp_skus.py` — the retrying GCP API call wrapper
  (`retry_api_call_run`).
* `map_price_sets_to_service_plans.py` — the append-only price-set attach
  (`update_plan_price_set_ids`).

Machine floats are modelled by `ℚ` (every concrete value appearing in the
claims is exactly representable in binary floating point, and the code only
adds `units` to `nanos / 10^9`).  Python dictionaries coming from the JSON
catalog are modelled by structures whose `Option` fields record key absence
where the code distinguishes it; keys the code immediately defaults with
`or ''` / `.get(k, '')` are modelled as plain `String`s with the
convention that a missing key is the empty string.
-/

/-- Python `str.lower()` for the ASCII catalog strings: map `Char.toLower`
over the characters (identical to core `String.toLower`, but defined by
structural recursion so it evaluates inside the kernel). -/
def toLowerStr (s : String) : String := ⟨s.data.map Char.toLower⟩

/-- Python `str.upper()`, as `toLowerStr`. -/
def toUpperStr (s : String) : String := ⟨s.data.map Char.toUpper⟩

/-- Python `needle in haystack` substring containment, on character lists. -/
def listSubstr (needle : List Char) : List Char → Bool
  | [] => needle.isEmpty
  | c :: t => needle.isPrefixOf (c :: t) || listSubstr needle t

/-- Python `needle in haystack` on strings. -/
def strContains (needle haystack : String) : Bool :=
  listSubstr needle.data haystack.data

/-- Python `str.replace(old, new)` for single-character `old`/`new` (the only
form the source uses: `region.replace('-', '_')`, `.replace('_', '-')`,
`.replace(' ', '-')`).  For a one-character pattern this is exactly a
character map. -/
def replaceChar (old new : Char) (s : String) : String :=
  ⟨s.data.map (fun c => if c = old then new else c)⟩

/-- Python `'.'.join(parts)`-style join with a separator. -/
def pyJoin (sep : String) : List String → String
  | [] => ""
  | [a] => a
  | a :: b :: rest => a ++ sep ++ pyJoin sep (b :: rest)

/-- Python truthiness of an optional string combined with `or d`
(`fam or 'unknown'`): `None` and the empty string fall back to `d`. -/
def pyOrStr (v : Option String) (d : String) : String :=
  match v with
  | none => d
  | some s => if s = "" then d else s

/-- Python truthiness of an optional string (`if machine_family:`). -/
def pyTruthy (v : Option String) : Bool :=
  match v with
  | none => false
  | some s => s ≠ ""

/-- The `category` sub-object of a SKU.  The code always reads these keys
with `.get(k, '')` / `or ''`, so a missing key is modelled as `""`. -/
structure Category where
  resourceFamily : String
  resourceGroup : String
  usageType : String
deriving DecidableEq, Repr

/-- The `unitPrice` dictionary of the first tiered rate.
`units`/`nanos` are `none` when the key is absent (a present `None` value is
collapsed to `some 0`, faithful to the code's `int(rate.get('units') or 0)`);
`extraKeys` records whether the dictionary carries any further keys (such as
`currencyCode`), which matters only for Python truthiness of the dict. -/
structure Rate where
  units : Option Int
  nanos : Option Int
  extraKeys : Bool
deriving DecidableEq, Repr

/-- Python truthiness of the `unitPrice` dict (`if not rate: return None`):
a dictionary is falsy exactly when it is empty. -/
def Rate.isTruthy (r : Rate) : Bool :=
  r.units.isSome || r.nanos.isSome || r.extraKeys

/-- One entry of `tieredRates`.  `unitPrice` absent means
`tiered_rates[0].get('unitPrice', {})` yields the empty dict, which is the
same as a present empty dict; both are `⟨none, none, false⟩`. -/
structure TieredRate where
  unitPrice : Rate
deriving DecidableEq, Repr

/-- One entry of `pricingInfo`, flattened over its `pricingExpression`
sub-object (`pricing_info[0].get('pricingExpression', {})`).  `usageUnit` is
`none` when the key is absent (the code defaults it to `"hour"`). -/
structure PricingInfo where
  tieredRates : List TieredRate
  usageUnit : Option String
deriving DecidableEq, Repr

/-- A raw catalog SKU as consumed by `_normalize_sku` and
`_extract_compute_skus`.  `skuId`/`description` default to `""` on a missing
key, matching `sku.get('skuId', '')` / `sku.get('description', '')`. -/
structure RawSku where
  skuId : String
  description : String
  category : Category
  pricingInfo : List PricingInfo
deriving DecidableEq, Repr

/-- The normalized SKU produced by `_normalize_sku`
(gcp-price-sync-final.py lines 153-181).  The `tiered_rates`,
`pricing_info` and `original_sku` fields of the Python dict are verbatim
copies of the input and are not read by any code a claim is about, so they
are not repeated here. -/
structure NormalizedSku where
  sku_id : String
  description : String
  service_name : String
  service_id : String
  category : Category
  pricing_unit : String
  rate : Rate
deriving DecidableEq, Repr

/-- `SKUCatalogProcessor._normalize_sku` (gcp-price-sync-final.py 153-181):
returns `none` when there is no pricing-info block, no tiered-rate entry, or
the first tiered rate's `unitPrice` dict is empty; otherwise builds the
normalized record from the FIRST pricing info and FIRST tiered rate. -/
def normalize_sku (sku : RawSku) (serviceName serviceId : String) :
    Option NormalizedSku :=
  match sku.pricingInfo with
  | [] => none
  | pi :: _ =>
    match pi.tieredRates with
    | [] => none
    | tr :: _ =>
      if tr.unitPrice.isTruthy then
        some { sku_id := sku.skuId
               description := sku.description
               service_name := serviceName
               service_id := serviceId
               category := sku.category
               pricing_unit := pi.usageUnit.getD "hour"
               rate := tr.unitPrice }
      else
        none

/-- The ordered rule table of `SKUCatalogProcessor._categorize_sku`
(gcp-price-sync-final.py 183-219): each pair is one `if` of the source's
first-match chain, in source order — condition and resulting bucket. -/
def categorize_rules (sku : NormalizedSku) : List (Bool × String) :=
  let service_name := toLowerStr sku.service_name
  let description := toLowerStr sku.description
  let resource_family := toLowerStr sku.category.resourceFamily
  [(resource_family == "storage", "storage"),
   (resource_family == "compute", "compute"),
   (resource_family == "network", "network"),
   (resource_family == "database", "database"),
   (["ai/ml", "ai", "ml"].contains resource_family, "ai_ml"),
   (["storage", "cloud storage", "filestore", "memorystore"].any
     (fun k => strContains k service_name), "storage"),
   (["compute", "vm", "instance", "gke", "kubernetes", "run",
     "functions"].any (fun k => strContains k service_name), "compute"),
   (["network", "vpc", "load balancer", "cdn", "gateway"].any
     (fun k => strContains k service_name), "network"),
   (["sql", "database", "firestore", "bigtable", "spanner", "alloydb"].any
     (fun k => strContains k service_name), "database"),
   (["ai", "ml", "vertex", "notebooks", "composer", "dataflow"].any
     (fun k => strContains k service_name), "ai_ml"),
   (["storage", "gb", "tb"].any (fun k => strContains k description),
     "storage"),
   (["cpu", "ram", "memory", "core"].any
     (fun k => strContains k description), "compute"),
   (["network", "bandwidth", "transfer"].any
     (fun k => strContains k description), "network"),
   (["database", "sql", "query"].any (fun k => strContains k description),
     "database"),
   (["ai", "ml", "machine learning", "tensorflow"].any
     (fun k => strContains k description), "ai_ml")]

/-- First-match evaluation of an ordered `if`/`elif` rule chain with the
`"other"` fallback of `_categorize_sku`. -/
def first_rule_match : List (Bool × String) → String
  | [] => "other"
  | p :: rest => if p.1 then p.2 else first_rule_match rest

/-- `SKUCatalogProcessor._categorize_sku` (gcp-price-sync-final.py
183-219): the broad bucket used for summary reporting — the source's
ordered first-match `if`/`elif` chain evaluated over its rule table, with
fallback `"other"`. -/
def categorize_sku (sku : NormalizedSku) : String :=
  first_rule_match (categorize_rules sku)

/-- The disjunction of every rule condition of `categorize_sku`; when it is
false the chain falls through to the `"other"` fallback. -/
def categorize_sku_hit (sku : NormalizedSku) : Bool :=
  (categorize_rules sku).any (fun p => p.1)

/-- `c` is an ASCII lowercase letter (`[a-z]` in the patterns). -/
def isLowerAlpha (c : Char) : Bool := 'a' ≤ c && c ≤ 'z'

/-- A `\w` word character, for the `\b` boundary of the second pattern. -/
def isWordChar (c : Char) : Bool := c.isAlpha || c.isDigit || c == '_'

/-- Match the regex `([a-z]\d+[a-z]?)-` at the head of the list, returning
the captured group.  The optional trailing letter is greedy with the usual
regex backtracking: it is kept only when a `-` follows it, and after a
digit run only a `-` (directly, or after one letter) completes the match. -/
def famMatchAt : List Char → Option (List Char)
  | [] => none
  | c :: rest =>
    if isLowerAlpha c then
      let ds := rest.takeWhile Char.isDigit
      let rest2 := rest.dropWhile Char.isDigit
      if ds.isEmpty then none
      else
        match rest2 with
        | [] => none
        | [d] => if d = '-' then some (c :: ds) else none
        | d :: e :: _ =>
          if d = '-' then some (c :: ds)
          else if isLowerAlpha d && e = '-' then some (c :: ds ++ [d])
          else none
    else none

/-- `re.search(r'\b([a-z]\d+[a-z]?)-', s)`: scan left to right, attempting
the match at every word-boundary position.  `prev` is the character before
the current position (`none` at the start of the string). -/
def famSearch : Option Char → List Char → Option (List Char)
  | _, [] => none
  | prev, c :: t =>
    let boundary := match prev with
      | none => true
      | some p => !(isWordChar p)
    if boundary then
      match famMatchAt (c :: t) with
      | some g => some g
      | none => famSearch (some c) t
    else famSearch (some c) t

/-- `SKUCatalogProcessor.extract_machine_family`
(gcp-price-sync-final.py 221-228): lower-case the text, then try the
anchored pattern `^([a-z]\d+[a-z]?)-` first and the word-boundary pattern
`\b([a-z]\d+[a-z]?)-` anywhere in the string as fallback. -/
def extract_machine_family (text : String) : Option String :=
  let name := toLowerStr text
  match famMatchAt name.data with
  | some g => some ⟨g⟩
  | none =>
    match famSearch none name.data with
    | some g => some ⟨g⟩
    | none => none

/-- The storage keyword list of `classify_price_type`. -/
def storage_keywords : List String :=
  ["persistent disk", "pd-", "hyperdisk", "local ssd", "ssd", "hdd",
   "filestore"]

/-- `SKUCatalogProcessor.classify_price_type`
(gcp-price-sync-final.py 230-256): first-match chain
storage → cores → memory → software; the machine family is extracted from
the (lower-cased) description for the cores and memory branches. -/
def classify_price_type (sku : NormalizedSku) : String × Option String :=
  let description := toLowerStr sku.description
  let resource_family := toLowerStr sku.category.resourceFamily
  let resource_group := toLowerStr sku.category.resourceGroup
  if resource_family == "storage" ||
      storage_keywords.any (fun k => strContains k description) then
    ("storage", none)
  else if resource_family == "compute" || resource_group == "cpu" ||
      ["vcpu", "core", "cpu"].any (fun k => strContains k description) then
    ("cores", extract_machine_family description)
  else if resource_group == "ram" ||
      ["ram", "memory"].any (fun k => strContains k description) then
    ("memory", extract_machine_family description)
  else
    ("software", none)

/-- `region.replace('-', '_')` (gcp-price-sync-final.py line 365 / 508). -/
def region_key (region : String) : String := replaceChar '-' '_' region

/-- The price code built by `create_comprehensive_pricing_data`
(gcp-price-sync-final.py 376-382): join
`[PRICE_PREFIX.lower(), 'gcp', price_type] (++ [machine_family] if truthy)
++ [region_key, sku_id]` with `'.'`. -/
def morpheus_price_code (pfx priceType : String) (machineFamily : Option String)
    (regionKey skuId : String) : String :=
  pyJoin "."
    ([toLowerStr pfx, "gcp", priceType] ++
      (if pyTruthy machineFamily then [machineFamily.getD ""] else []) ++
      [regionKey, skuId])

/-- `units + nanos / 1_000_000_000` from the rate dict
(gcp-price-sync-final.py 369-374): computed only when both the `units` and
the `nanos` keys are present, otherwise the price stays `0.0`. -/
def price_value (rate : Rate) : ℚ :=
  match rate.units, rate.nanos with
  | some u, some n => (u : ℚ) + (n : ℚ) / 1000000000
  | _, _ => 0

/-- One pricing entry produced by `create_comprehensive_pricing_data`
(gcp-price-sync-final.py 384-400). -/
structure PricingEntry where
  name : String
  morpheus_code : String
  priceTypeCode : String
  priceUnit : String
  price : ℚ
  cost : ℚ
  currency : String
  incurCharges : Bool
  active : Bool
  region : String
  machine_family : String
  sku_id : String
  service_name : String
  category : Category
  description : String
deriving DecidableEq, Repr

/-- The per-SKU body of `create_comprehensive_pricing_data`
(gcp-price-sync-final.py 366-401).  The `machine_family` field reproduces
the Python conditional expression
`machine_family or 'software' if price_type == 'software' else
(machine_family or 'unknown')`, which parenthesizes as
`(machine_family or 'software') if (price_type == 'software') else
(machine_family or 'unknown')`. -/
def create_pricing_entry (pfx region : String) (sku : NormalizedSku) :
    PricingEntry :=
  let pt := classify_price_type sku
  let price_type := pt.1
  let machine_family := pt.2
  { name := pfx ++ " - " ++ sku.description
    morpheus_code :=
      morpheus_price_code pfx price_type machine_family (region_key region)
        sku.sku_id
    priceTypeCode := price_type
    priceUnit := "hour"
    price := price_value sku.rate
    cost := price_value sku.rate
    currency := "USD"
    incurCharges := true
    active := true
    region := region
    machine_family :=
      if price_type == "software" then pyOrStr machine_family "software"
      else pyOrStr machine_family "unknown"
    sku_id := sku.sku_id
    service_name := sku.service_name
    category := sku.category
    description := sku.description }

/-- `create_comprehensive_pricing_data` over a list of normalized SKUs
(gcp-price-sync-final.py 358-406); normalization has already filtered the
`none` records out (`_process_skus` keeps only truthy normalized SKUs). -/
def create_comprehensive_pricing_data (pfx region : String)
    (skus : List NormalizedSku) : List PricingEntry :=
  skus.map (create_pricing_entry pfx region)

/-- `SKUCatalogProcessor._process_skus` for one service
(gcp-price-sync-final.py 142-148): normalize each raw SKU and drop the
`None` results — a `none` from `normalize_sku` is excluded from all
downstream processing. -/
def process_service_skus (serviceName serviceId : String)
    (skus : List RawSku) : List NormalizedSku :=
  skus.filterMap (fun s => normalize_sku s serviceName serviceId)

/-- The price code built by `create_price_data` / the main loop of
create_prices.py (lines 232-234 and 328):
`f"{prefix.lower()}-gcp-{sku_id}".replace('_', '-').replace(' ', '-')
.lower()`. -/
def create_price_data_code (pfx skuId : String) : String :=
  toLowerStr (replaceChar ' ' '-' (replaceChar '_' '-'
    (toLowerStr pfx ++ "-gcp-" ++ skuId)))

/-- The `price` sub-dictionary of the payload built by the sync loop
(gcp-price-sync-final.py 647-657).  Every key is always present and
correctly typed by construction, so the payload is modelled as a typed
record. -/
structure PricePayload where
  name : String
  code : String
  priceType : String
  priceUnit : String
  price : ℚ
  cost : ℚ
  incurCharges : Bool
  currency : String
  active : Bool
deriving DecidableEq, Repr

/-- Build the create-price payload from a pricing entry
(gcp-price-sync-final.py 647-657). -/
def price_payload (e : PricingEntry) : PricePayload :=
  { name := e.name
    code := e.morpheus_code
    priceType := e.priceTypeCode
    priceUnit := e.priceUnit
    price := e.price
    cost := e.cost
    incurCharges := e.incurCharges
    currency := e.currency
    active := e.active }

/-- The closed `priceType` whitelist of `validate_price_payload`
(gcp-price-sync-final.py 614-617). -/
def valid_price_types : List String :=
  ["fixed", "compute", "memory", "cores", "storage", "datastore",
   "platform", "software", "load_balancer", "load_balancer_virtual_server"]

/-- `validate_price_payload` (gcp-price-sync-final.py 581-625) on the typed
payload.  The required-field presence, the non-`None` checks and the
numeric/boolean type checks are all discharged by the payload's type (the
payload dict built by the sync loop always carries exactly these keys with
these types), so the one remaining check is the `priceType` whitelist. -/
def validate_price_payload (p : PricePayload) : Bool :=
  valid_price_types.contains p.priceType

/-- The create-or-skip loop of `sync_data`
(gcp-price-sync-final.py 639-670), abstracted over the code-existence
lookup (`GET prices?code=...` returning a non-empty `prices` list).
Returns `(number of POST prices create calls, number of records skipped
because the code already exists)`. -/
def sync_price_step (codeExists : String → Bool) (acc : Nat × Nat)
    (e : PricingEntry) : Nat × Nat :=
  if codeExists e.morpheus_code then (acc.1, acc.2 + 1)
  else if validate_price_payload (price_payload e) then (acc.1 + 1, acc.2)
  else acc

/-- The whole loop: fold the per-record step over the pricing data,
starting from zero counters. -/
def sync_prices_loop (codeExists : String → Bool)
    (entries : List PricingEntry) : Nat × Nat :=
  entries.foldl (sync_price_step codeExists) (0, 0)

/-- Outcome counters of the main loop of create_prices.py (lines 323-358):
`createCalls` counts `client.create_price` invocations, `reusedExisting`
counts records skipped (and re-collected) because `get_price_by_code` found
the code, `skippedNoPricing` is the script's `skipped_count` (SKUs with no
`pricingInfo`). -/
structure CreatePricesCounts where
  createCalls : Nat
  reusedExisting : Nat
  skippedNoPricing : Nat
deriving DecidableEq, Repr

/-- The main loop of create_prices.py (lines 323-358), abstracted over the
code-existence lookup. -/
def create_prices_step (pfx : String) (codeExists : String → Bool)
    (acc : CreatePricesCounts) (sku : RawSku) : CreatePricesCounts :=
  if codeExists (create_price_data_code pfx sku.skuId) then
    { acc with reusedExisting := acc.reusedExisting + 1 }
  else if sku.pricingInfo.isEmpty then
    { acc with skippedNoPricing := acc.skippedNoPricing + 1 }
  else
    { acc with createCalls := acc.createCalls + 1 }

/-- The whole loop: fold the per-SKU step over the catalog, starting from
zero counters. -/
def create_prices_main_loop (pfx : String) (codeExists : String → Bool)
    (skus : List RawSku) : CreatePricesCounts :=
  skus.foldl (create_prices_step pfx codeExists) ⟨0, 0, 0⟩

/-- The storage volume-type keyword list of `create_component_price_sets`
(gcp-price-sync-final.py 510-511). -/
def component_storage_types : List String :=
  ["pd-standard", "pd-ssd", "pd-balanced", "pd-extreme", "local-ssd",
   "hyperdisk-balanced", "hyperdisk-extreme", "regional-pd-standard",
   "regional-pd-ssd"]

/-- The storage-bucket test of the grouping loop
(gcp-price-sync-final.py 518). -/
def is_storage_entry (p : PricingEntry) : Bool :=
  p.priceTypeCode == "storage" ||
    component_storage_types.any (fun t => strContains t (toLowerStr p.description))

/-- The cores/memory family-bucket test of the grouping loop
(gcp-price-sync-final.py 520): cores- or memory-typed with a truthy
`machine_family` that is neither `software` nor `unknown`.  Reached only
when `is_storage_entry` is false (it is the `elif` branch). -/
def is_family_entry (p : PricingEntry) : Bool :=
  (p.priceTypeCode == "cores" || p.priceTypeCode == "memory") &&
    p.machine_family != "" &&
    p.machine_family != "software" && p.machine_family != "unknown"

/-- Python `set.add`, on the deduplicated-list representation of a set:
append the element unless it is already present.  A `set` has no
observable order, so any duplicate-free list represents it; every theorem
about these sets only depends on membership. -/
def pySetInsert {α : Type} [DecidableEq α] (x : α) (s : List α) : List α :=
  if x ∈ s then s else s ++ [x]

/-- Python `set.update` (in-place union), on the list representation. -/
def pySetUnion {α : Type} [DecidableEq α] (s t : List α) : List α :=
  t.foldl (fun acc x => pySetInsert x acc) s

/-- Add a price id and its type to the group of `fam` in the insertion-order
association list, creating the group at the end on first sight (Python dict
insertion order). -/
def addFamilyPrice (fam : String) (pid : ℕ) (pt : String) :
    List (String × List ℕ × List String) →
    List (String × List ℕ × List String)
  | [] => [(fam, [pid], [pt])]
  | (f, ps, ts) :: rest =>
    if f = fam then (f, pySetInsert pid ps, pySetInsert pt ts) :: rest
    else (f, ps, ts) :: addFamilyPrice fam pid pt rest

/-- The grouping loop of `create_component_price_sets`
(gcp-price-sync-final.py 513-532): for each pricing entry whose code
resolves to a price id, add the id to the region's storage pool
(storage branch) or to its machine family's group (cores/memory branch).
Returns `(storage pool, family groups in insertion order)`. -/
def component_scan (priceIdMap : String → Option ℕ)
    (entries : List PricingEntry) :
    List ℕ × List (String × List ℕ × List String) :=
  entries.foldl
    (fun st p =>
      match priceIdMap p.morpheus_code with
      | none => st
      | some pid =>
        if is_storage_entry p then (pySetInsert pid st.1, st.2)
        else if is_family_entry p then
          (st.1, addFamilyPrice p.machine_family pid p.priceTypeCode st.2)
        else st)
    ([], [])

/-- One component price set as assembled by `create_component_price_sets`
(gcp-price-sync-final.py 534-561).  `complete` records whether the required
component types `{cores, memory, storage}` are all present — the condition
whose failure the code logs as a warning while still emitting the set. -/
structure ComponentPriceSet where
  name : String
  code : String
  prices : List ℕ
  price_types : List String
  complete : Bool
deriving DecidableEq, Repr

/-- `create_component_price_sets`
(gcp-price-sync-final.py 492-578), abstracted over the code-to-id lookup
built from `GET prices?...` (`price_id_map`): group cores/memory prices by
(family, region), union the region's storage prices into every family
group (the storage pool key exists exactly when the pool is non-empty),
and emit every group that has at least one price, flagging completeness. -/
def create_component_price_sets (pfx region : String)
    (priceIdMap : String → Option ℕ) (entries : List PricingEntry) :
    List ComponentPriceSet :=
  let rk := region_key region
  let scanned := component_scan priceIdMap entries
  let storage := scanned.1
  (scanned.2.map (fun g =>
    let fam := g.1
    let ps := if storage = [] then g.2.1 else pySetUnion g.2.1 storage
    let ts := if storage = [] then g.2.2 else pySetInsert "storage" g.2.2
    { name := pfx ++ " - GCP - " ++ toUpperStr fam ++ " (" ++ region ++ ")"
      code := toLowerStr pfx ++ ".gcp-" ++ fam ++ "-" ++ rk
      prices := ps
      price_types := ts
      complete := ["cores", "memory", "storage"].all (fun t => ts.contains t) }
  )).filter (fun s => !s.prices.isEmpty)

/-- Outcome of one HTTP attempt inside `MorpheusAPIClient.make_request`
(create_prices.py 54-72): either the request raised a transport exception
or a response with the given status code came back. -/
inductive AttemptOutcome where
  | exn : AttemptOutcome
  | resp : Nat → AttemptOutcome
deriving DecidableEq, Repr

/-- `MorpheusAPIClient.make_request` (create_prices.py 54-72), from a given
attempt index with `fuel` remaining loop iterations
(`fuel = maxRetries - attempt`, so the loop `for attempt in
range(max_retries)` ends exactly when the fuel runs out): return the
response as soon as its status is `< 500` (client errors included),
otherwise sleep 1 second (except after the last attempt) and retry; when
the attempt budget is exhausted, raise (`none`).  The second component is
the list of sleep durations, in seconds, in order. -/
def make_request_go (outcomes : Nat → AttemptOutcome) (maxRetries : Nat) :
    Nat → Nat → Option Nat × List Nat
  | _, 0 => (none, [])
  | attempt, fuel + 1 =>
    let retry : Option Nat × List Nat :=
      let rest := make_request_go outcomes maxRetries (attempt + 1) fuel
      if attempt < maxRetries - 1 then (rest.1, 1 :: rest.2)
      else (rest.1, rest.2)
    match outcomes attempt with
    | .resp s => if s < 500 then (some s, []) else retry
    | .exn => retry

/-- `make_request` with an attempt budget (default 3, create_prices.py 54),
started at attempt 0 with full fuel. -/
def make_request_run (outcomes : Nat → AttemptOutcome)
    (maxRetries : Nat := 3) : Option Nat × List Nat :=
  make_request_go outcomes maxRetries 0 maxRetries

/-- Outcome of one attempt inside `GCPBillingClient._retry_api_call`
(discover_gcp_skus.py 103-119): success with a value, an `HttpError`
carrying its HTTP status, or any other exception. -/
inductive GcpAttemptOutcome where
  | ok : Nat → GcpAttemptOutcome
  | httpError : Nat → GcpAttemptOutcome
  | otherError : GcpAttemptOutcome
deriving DecidableEq, Repr

/-- Result of `_retry_api_call`: the value, a re-raised `HttpError`, an
immediately propagated other exception, or the implicit `None` when the
loop body never runs (`max_retries = 0`). -/
inductive RetryResult where
  | success : Nat → RetryResult
  | raisedHttp : RetryResult
  | raisedOther : RetryResult
  | noAttempt : RetryResult
deriving DecidableEq, Repr

/-- `GCPBillingClient._retry_api_call` (discover_gcp_skus.py 103-119) from
a given attempt index with `fuel` remaining loop iterations
(`fuel = maxRetries - attempt`): any `HttpError` — its status is never
inspected — is retried after sleeping `2 ** attempt` seconds, except on
the last attempt where it is re-raised; any other exception propagates at
once.  The second component is the list of sleep durations in order. -/
def retry_api_call_go (outcomes : Nat → GcpAttemptOutcome)
    (maxRetries : Nat) : Nat → Nat → RetryResult × List Nat
  | _, 0 => (.noAttempt, [])
  | attempt, fuel + 1 =>
    match outcomes attempt with
    | .ok v => (.success v, [])
    | .otherError => (.raisedOther, [])
    | .httpError _ =>
      if attempt = maxRetries - 1 then (.raisedHttp, [])
      else
        let rest := retry_api_call_go outcomes maxRetries (attempt + 1) fuel
        (rest.1, 2 ^ attempt :: rest.2)

/-- `_retry_api_call` with an attempt budget (default 3,
discover_gcp_skus.py 103), started at attempt 0 with full fuel. -/
def retry_api_call_run (outcomes : Nat → GcpAttemptOutcome)
    (maxRetries : Nat := 3) : RetryResult × List Nat :=
  retry_api_call_go outcomes maxRetries 0 maxRetries

/-- `update_service_plan_with_price_sets`
(map_price_sets_to_service_plans.py 153-185), reduced to the id lists: the
`priceSets` ids sent in the update are the existing mapping ids followed by
the ids of the new price sets that are not already mapped. -/
def update_plan_price_set_ids (existingIds newIds : List ℕ) : List ℕ :=
  existingIds ++ newIds.filter (fun i => !(existingIds.contains i))

/-- The `--map-to-plans` attach step of gcp-price-sync-final.py main
(lines 927-931): the ids sent are the union of the plan's current price-set
ids and the one matching price set's id. -/
def map_to_plans_final_ids (currentIds : Finset ℕ) (priceSetId : ℕ) :
    Finset ℕ :=
  currentIds ∪ {priceSetId}

/-! ## Helper lemmas -/

/-- Joining `a :: l ++ [x]` appends `sep ++ x` to the join of `a :: l`. -/
theorem pyJoin_append_last (sep a x : String) (l : List String) :
    pyJoin sep (a :: l ++ [x]) = pyJoin sep (a :: l) ++ sep ++ x := by
  induction l generalizing a with
  | nil => rfl
  | cons b t ih =>
    show a ++ sep ++ pyJoin sep (b :: t ++ [x]) = _
    rw [ih b]
    simp [String.append_assoc, pyJoin]

/-- String append is left-cancellative. -/
theorem string_append_right_ne (base x y : String) (h : x ≠ y) :
    base ++ x ≠ base ++ y := by
  intro he
  apply h
  have hd := congrArg String.data he
  simp only [String.data_append] at hd
  have hc := List.append_cancel_left hd
  cases x
  cases y
  exact congrArg String.mk hc

/-- The price code of gcp-price-sync-final.py is the join of its non-sku
parts followed by `"." ++ skuId`. -/
theorem morpheus_price_code_last (pfx pt : String) (fam : Option String)
    (rk skuId : String) :
    morpheus_price_code pfx pt fam rk skuId =
      pyJoin "." (toLowerStr pfx ::
        (["gcp", pt] ++ (if pyTruthy fam then [fam.getD ""] else []) ++ [rk]))
        ++ "." ++ skuId := by
  unfold morpheus_price_code
  rw [← pyJoin_append_last]
  congr 1
  simp

/-! ## C1 -/

/-- C1, counterexample: for prefix `IOH-CP`, price type `cores`, machine
family `n2`, region `asia-southeast2` and SKU id `1234-ABCD`, the code
built by `create_comprehensive_pricing_data`
(`ioh-cp.gcp.cores.n2.asia_southeast2.1234-ABCD`) is not the code built by
`create_price_data` (`ioh-cp-gcp-1234-abcd`), refuting the claim that
identical inputs yield identical codes across the two implementations. -/
theorem c1_counterexample :
    morpheus_price_code "IOH-CP" "cores" (some "n2")
        (region_key "asia-southeast2") "1234-ABCD" ≠
      create_price_data_code "IOH-CP" "1234-ABCD" := by
  decide

/-- C1 (amended): within each implementation the price code is a pure
function of its inputs — identical argument tuples always yield identical
code strings, for `create_comprehensive_pricing_data`'s code and for
`create_price_data`'s code — but the two implementations do not agree on a
common code for the same tuple. -/
theorem c1_price_code_pure_per_implementation
    (pfx₁ pfx₂ pt₁ pt₂ : String) (fam₁ fam₂ : Option String)
    (rk₁ rk₂ sku₁ sku₂ : String)
    (h : (pfx₁, pt₁, fam₁, rk₁, sku₁) = (pfx₂, pt₂, fam₂, rk₂, sku₂)) :
    morpheus_price_code pfx₁ pt₁ fam₁ rk₁ sku₁ =
        morpheus_price_code pfx₂ pt₂ fam₂ rk₂ sku₂ ∧
      create_price_data_code pfx₁ sku₁ = create_price_data_code pfx₂ sku₂ := by
  obtain ⟨rfl, rfl, rfl, rfl, rfl⟩ := Prod.mk.injEq .. ▸ h
  exact ⟨rfl, rfl⟩

/-- C1, witness for the amended theorem at a concrete tuple. -/
theorem c1_witness :
    morpheus_price_code "IOH-CP" "cores" (some "n2") "asia_southeast2"
        "1234-ABCD" =
      morpheus_price_code "IOH-CP" "cores" (some "n2") "asia_southeast2"
        "1234-ABCD" ∧
    create_price_data_code "IOH-CP" "1234-ABCD" =
      create_price_data_code "IOH-CP" "1234-ABCD" :=
  c1_price_code_pure_per_implementation "IOH-CP" "IOH-CP" "cores" "cores"
    (some "n2") (some "n2") "asia_southeast2" "asia_southeast2"
    "1234-ABCD" "1234-ABCD" rfl

/-! ## C8 -/

/-- C8, counterexample: `create_price_data`'s code construction is not
injective in the SKU id — the distinct SKU ids `A_B` and `A-B` collide on
the same code under an identical prefix. -/
theorem c8_counterexample :
    create_price_data_code "IOH-CP" "A_B" =
        create_price_data_code "IOH-CP" "A-B" ∧
      ("A_B" : String) ≠ "A-B" := by
  constructor
  · decide
  · decide

/-- C8 (amended): both price-code constructions are idempotent (repeated
calls with identical arguments yield identical strings), and the
gcp-price-sync-final.py construction is injective in the SKU id with the
other arguments fixed; the create_prices.py construction is not (it
case-folds the id and maps underscore and space to a dash, see the
counterexample). -/
theorem c8_price_code_idempotent_injective
    (pfx pt : String) (fam : Option String) (rk sku sku₂ : String)
    (h : sku ≠ sku₂) :
    morpheus_price_code pfx pt fam rk sku =
        morpheus_price_code pfx pt fam rk sku ∧
      create_price_data_code pfx sku = create_price_data_code pfx sku ∧
      morpheus_price_code pfx pt fam rk sku ≠
        morpheus_price_code pfx pt fam rk sku₂ := by
  refine ⟨rfl, rfl, ?_⟩
  rw [morpheus_price_code_last, morpheus_price_code_last]
  exact string_append_right_ne _ sku sku₂ h

/-- C8, witness for the amended theorem at a concrete tuple. -/
theorem c8_witness :
    morpheus_price_code "IOH-CP" "cores" (some "n2") "asia_southeast2"
        "AAAA" =
      morpheus_price_code "IOH-CP" "cores" (some "n2") "asia_southeast2"
        "AAAA" ∧
    create_price_data_code "IOH-CP" "AAAA" =
      create_price_data_code "IOH-CP" "AAAA" ∧
    morpheus_price_code "IOH-CP" "cores" (some "n2") "asia_southeast2"
        "AAAA" ≠
      morpheus_price_code "IOH-CP" "cores" (some "n2") "asia_southeast2"
        "BBBB" :=
  c8_price_code_idempotent_injective "IOH-CP" "cores" (some "n2")
    "asia_southeast2" "AAAA" "BBBB" (by decide)

/-! ## C4 -/

/-- The SKU of the claim: description
`"N2 Instance Core running in Singapore"` with `resourceFamily` `Compute`. -/
def n2SingaporeSku : NormalizedSku :=
  { sku_id := "1234-ABCD"
    description := "N2 Instance Core running in Singapore"
    service_name := "Compute Engine"
    service_id := "6F81-5844-456A"
    category := ⟨"Compute", "CPU", "OnDemand"⟩
    pricing_unit := "hour"
    rate := ⟨some 0, some 31611000, false⟩ }

/-- C4, counterexample: the SKU described as
`"N2 Instance Core running in Singapore"` with `resourceFamily="Compute"`
does NOT classify to machine family `"n2"` — both regex alternatives of
`extract_machine_family` require a `-` directly after the family token and
the description has none. -/
theorem c4_counterexample :
    classify_price_type n2SingaporeSku ≠ ("cores", some "n2") := by
  decide

/-- C4 (amended): that SKU classifies to `priceType = cores` with NO
machine family (`extract_machine_family` finds no match because the
description `"n2 instance core running in singapore"` contains no hyphen,
which both patterns demand right after the candidate family token). -/
theorem c4_classifies_cores_no_family :
    classify_price_type n2SingaporeSku = ("cores", none) ∧
      extract_machine_family "N2 Instance Core running in Singapore" =
        none := by
  constructor
  · decide
  · decide

/-! ## C5 -/

/-- A raw SKU whose first tiered rate has `units = 2`,
`nanos = 500000000`. -/
def twoFiveRawSku : RawSku :=
  { skuId := "AAAA-1111"
    description := "N1 Predefined Instance Core"
    category := ⟨"Compute", "CPU", "OnDemand"⟩
    pricingInfo := [⟨[⟨⟨some 2, some 500000000, false⟩⟩], some "hour"⟩] }

/-- A raw SKU whose first tiered rate carries an explicit zero unit price
(`units = 0`, `nanos = 0` both present in the dict). -/
def zeroRateRawSku : RawSku :=
  { skuId := "BBBB-2222"
    description := "Network Internet Egress"
    category := ⟨"Network", "", "OnDemand"⟩
    pricingInfo := [⟨[⟨⟨some 0, some 0, false⟩⟩], some "gibibyte"⟩] }

/-- A raw SKU whose first tiered rate has an empty/absent `unitPrice`
dict. -/
def emptyRateRawSku : RawSku :=
  { skuId := "CCCC-3333"
    description := "Promotional Credit"
    category := ⟨"", "", ""⟩
    pricingInfo := [⟨[⟨⟨none, none, false⟩⟩], some "hour"⟩] }

/-- C5, counterexample: a SKU whose first tiered rate carries the explicit
zero unit price `units = 0, nanos = 0` does NOT normalize to null — the
code's `if not rate` only rejects an empty `unitPrice` dict, and
`{'units': 0, 'nanos': 0}` is a truthy non-empty dict — so the SKU is not
excluded from downstream processing. -/
theorem c5_counterexample :
    (normalize_sku zeroRateRawSku "Compute Engine" "6F81-5844-456A").isSome =
      true := by
  decide

/-- C5 (amended): the unit price is computed as
`units + nanos / 1_000_000_000` from the first pricing-info block's first
tiered rate only, so the `units = 2, nanos = 500000000` SKU normalizes and
prices to `2.5`; but a SKU with the explicit zero rate `units = 0,
nanos = 0` is NOT excluded — it normalizes to a record priced `0` — and
only a missing pricing-info block, a missing tiered-rate entry, or an
empty `unitPrice` dict normalizes to null. -/
theorem c5_normalization_price :
    (∀ (u n : Int) (e : Bool),
        price_value ⟨some u, some n, e⟩ = (u : ℚ) + (n : ℚ) / 1000000000) ∧
    (∀ (a b : String) (c : Category) (p : PricingInfo)
        (rest : List PricingInfo) (sn sid : String),
        normalize_sku ⟨a, b, c, p :: rest⟩ sn sid =
          normalize_sku ⟨a, b, c, [p]⟩ sn sid) ∧
    (∀ (a b : String) (c : Category) (tr : TieredRate)
        (trs : List TieredRate) (uu : Option String) (sn sid : String),
        normalize_sku ⟨a, b, c, [⟨tr :: trs, uu⟩]⟩ sn sid =
          normalize_sku ⟨a, b, c, [⟨[tr], uu⟩]⟩ sn sid) ∧
    (normalize_sku twoFiveRawSku "Compute Engine" "6F81-5844-456A").map
        (fun ns => price_value ns.rate) = some (5 / 2 : ℚ) ∧
    (normalize_sku zeroRateRawSku "Compute Engine" "6F81-5844-456A").map
        (fun ns => price_value ns.rate) = some 0 ∧
    normalize_sku emptyRateRawSku "Compute Engine" "6F81-5844-456A" = none ∧
    (∀ (a b : String) (c : Category) (sn sid : String),
        normalize_sku ⟨a, b, c, []⟩ sn sid = none) ∧
    (∀ (a b : String) (c : Category) (uu : Option String) (sn sid : String),
        normalize_sku ⟨a, b, c, [⟨[], uu⟩]⟩ sn sid = none) := by
  refine ⟨fun u n e => rfl, fun a b c p rest sn sid => rfl,
    fun a b c tr trs uu sn sid => rfl, ?_, ?_, ?_,
    fun a b c sn sid => rfl, fun a b c uu sn sid => rfl⟩
  · show some (price_value ⟨some 2, some 500000000, false⟩) = some (5 / 2 : ℚ)
    norm_num [price_value]
  · show some (price_value ⟨some 0, some 0, false⟩) = some (0 : ℚ)
    norm_num [price_value]
  · decide

/-! ## C7 -/

/-- A classified pricing entry for the component price-set scenario. -/
def c7_entry (code pt fam desc : String) : PricingEntry :=
  { name := "IOH-CP - " ++ desc
    morpheus_code := code
    priceTypeCode := pt
    priceUnit := "hour"
    price := 1
    cost := 1
    currency := "USD"
    incurCharges := true
    active := true
    region := "asia-southeast2"
    machine_family := fam
    sku_id := "S"
    service_name := "Compute Engine"
    category := ⟨"Compute", "", ""⟩
    description := desc }

/-- The claim's catalog: 3 `cores`-typed prices for machine family `e2` and
2 `storage`-typed prices, all in region `asia-southeast2`. -/
def c7_entries : List PricingEntry :=
  [c7_entry "c1" "cores" "e2" "E2 Instance Core",
   c7_entry "c2" "cores" "e2" "E2 Instance Core B",
   c7_entry "c3" "cores" "e2" "E2 Instance Core C",
   c7_entry "c4" "storage" "unknown" "Storage Capacity",
   c7_entry "c5" "storage" "unknown" "Storage Capacity B"]

/-- The same catalog extended with a `memory`-typed `e2` price. -/
def c7_entries_with_memory : List PricingEntry :=
  c7_entries ++ [c7_entry "c6" "memory" "e2" "E2 Instance Ram"]

/-- The price-id lookup resolving every code of the scenario. -/
def c7_id_map : String → Option ℕ := fun c =>
  (([("c1", 1), ("c2", 2), ("c3", 3), ("c4", 4), ("c5", 5), ("c6", 6)] :
    List (String × ℕ)).lookup c)

/-- C7: on the claim's catalog, `create_component_price_sets` yields
exactly one price set, for family `e2` in region `asia-southeast2`,
whose price references are exactly the 5 resolved ids (the 3 cores ids
grouped by family/region plus the 2 same-region storage ids unioned in);
without a memory-typed `e2` price the set is emitted anyway but flagged
incomplete, and adding such a price makes the flag complete. -/
theorem c7_component_price_sets :
    create_component_price_sets "IOH-CP" "asia-southeast2" c7_id_map
        c7_entries =
      [{ name := "IOH-CP - GCP - E2 (asia-southeast2)"
         code := "ioh-cp.gcp-e2-asia_southeast2"
         prices := [1, 2, 3, 4, 5]
         price_types := ["cores", "storage"]
         complete := false }] ∧
    create_component_price_sets "IOH-CP" "asia-southeast2" c7_id_map
        c7_entries_with_memory =
      [{ name := "IOH-CP - GCP - E2 (asia-southeast2)"
         code := "ioh-cp.gcp-e2-asia_southeast2"
         prices := [1, 2, 3, 6, 4, 5]
         price_types := ["cores", "memory", "storage"]
         complete := true }] := by
  constructor
  · decide
  · decide

/-! ## C9 -/

/-- C9: attaching price-set references to a service plan is append-only.
For `update_service_plan_with_price_sets` the ids sent are exactly the
union of the existing ids and the new ids (first conjunct preserves every
existing reference, second characterizes membership), the appended tail is
precisely the new ids not already present, and the `--map-to-plans` step of
gcp-price-sync-final.py likewise sends the union of the current ids and
the matched price-set id. -/
theorem c9_attach_append_only (existingIds newIds : List ℕ)
    (current : Finset ℕ) (psId : ℕ) :
    (∀ i ∈ existingIds, i ∈ update_plan_price_set_ids existingIds newIds) ∧
    (∀ i, i ∈ update_plan_price_set_ids existingIds newIds ↔
      i ∈ existingIds ∨ i ∈ newIds) ∧
    ((update_plan_price_set_ids existingIds newIds).drop
        existingIds.length =
      newIds.filter (fun i => !(existingIds.contains i))) ∧
    (∀ i ∈ (update_plan_price_set_ids existingIds newIds).drop
        existingIds.length, i ∉ existingIds) ∧
    (∀ i, i ∈ map_to_plans_final_ids current psId ↔
      i ∈ current ∨ i = psId) := by
  refine ⟨?_, ?_, ?_, ?_, ?_⟩
  · intro i hi
    simp [update_plan_price_set_ids]
    exact Or.inl hi
  · intro i
    simp only [update_plan_price_set_ids, List.mem_append, List.mem_filter]
    constructor
    · rintro (h | ⟨h, _⟩)
      · exact Or.inl h
      · exact Or.inr h
    · rintro (h | h)
      · exact Or.inl h
      · by_cases he : i ∈ existingIds
        · exact Or.inl he
        · refine Or.inr ⟨h, ?_⟩
          simpa using he
  · simp [update_plan_price_set_ids]
  · intro i hi
    simp only [update_plan_price_set_ids, List.drop_left,
      List.mem_filter] at hi
    simpa using hi.2
  · intro i
    simp [map_to_plans_final_ids]

/-- C9, witness: concrete instantiation of the append-only theorem. -/
theorem c9_witness :
    (1 ∈ update_plan_price_set_ids [1, 2] [2, 3]) ∧
    (∀ i ∈ (update_plan_price_set_ids [1, 2] [2, 3]).drop 2,
      i ∉ ([1, 2] : List ℕ)) :=
  ⟨(c9_attach_append_only [1, 2] [2, 3] {5} 7).1 1 (by decide),
   (c9_attach_append_only [1, 2] [2, 3] {5} 7).2.2.2.1⟩

/-! ## C10 -/

/-- Every price type returned by `classify_price_type` is one of
`storage`, `cores`, `memory`, `software`. -/
theorem classify_price_type_fst_mem (sku : NormalizedSku) :
    (classify_price_type sku).1 ∈
      (["storage", "cores", "memory", "software"] : List String) := by
  unfold classify_price_type
  dsimp only
  split_ifs <;> simp

/-- Each of the four classifier outputs is in the validator's closed
whitelist. -/
theorem classifier_output_in_whitelist (s : String)
    (hs : s ∈ (["storage", "cores", "memory", "software"] : List String)) :
    valid_price_types.contains s = true := by
  fin_cases hs <;> decide

/-- C10: for every input SKU the priceType returned by
`classify_price_type` is exactly one of `storage`, `cores`, `memory`,
`software`, each of which belongs to the closed `priceType` whitelist of
`validate_price_payload`; hence the payload built from a classified
pricing entry always passes the validator. -/
theorem c10_classified_price_type_valid (sku : NormalizedSku)
    (pfx region : String) :
    (classify_price_type sku).1 ∈
        (["storage", "cores", "memory", "software"] : List String) ∧
      validate_price_payload
        (price_payload (create_pricing_entry pfx region sku)) = true := by
  refine ⟨classify_price_type_fst_mem sku, ?_⟩
  show valid_price_types.contains (classify_price_type sku).1 = true
  exact classifier_output_in_whitelist _ (classify_price_type_fst_mem sku)

/-! ## C2 -/

/-- When every code in `entries` already exists, the sync fold only bumps
the skip counter. -/
theorem sync_prices_foldl_all_exist (codeExists : String → Bool) :
    ∀ (entries : List PricingEntry) (acc : Nat × Nat),
      (∀ e ∈ entries, codeExists e.morpheus_code = true) →
      entries.foldl (sync_price_step codeExists) acc =
        (acc.1, acc.2 + entries.length) := by
  intro entries
  induction entries with
  | nil => intro acc _; simp
  | cons e t ih =>
    intro acc h
    have he : codeExists e.morpheus_code = true := h e (by simp)
    have ht : ∀ x ∈ t, codeExists x.morpheus_code = true :=
      fun x hx => h x (by simp [hx])
    simp only [List.foldl_cons, sync_price_step, he, if_true]
    rw [ih (acc.1, acc.2 + 1) ht]
    simp only [List.length_cons]
    congr 1
    omega

/-- When every code already exists, the create_prices fold only bumps the
reused-existing counter. -/
theorem create_prices_foldl_all_exist (pfx : String)
    (codeExists : String → Bool) :
    ∀ (skus : List RawSku) (acc : CreatePricesCounts),
      (∀ sku ∈ skus,
        codeExists (create_price_data_code pfx sku.skuId) = true) →
      skus.foldl (create_prices_step pfx codeExists) acc =
        ⟨acc.createCalls, acc.reusedExisting + skus.length,
          acc.skippedNoPricing⟩ := by
  intro skus
  induction skus with
  | nil => intro acc _; simp
  | cons sku t ih =>
    intro acc h
    have he := h sku (by simp)
    have ht : ∀ x ∈ t,
        codeExists (create_price_data_code pfx x.skuId) = true :=
      fun x hx => h x (by simp [hx])
    simp only [List.foldl_cons, create_prices_step, he, if_true]
    rw [ih _ ht]
    simp only [List.length_cons]
    congr 1
    omega

/-- C2: if the target system's code-existence lookup answers positively for
every generated code, a rerun of either synchronization loop performs zero
create calls and skips every record — the skip count equals the record
count (for gcp-price-sync-final.py's `sync_data` loop and for the
create_prices.py main loop, whose skipped-because-existing records are
re-collected without any create call). -/
theorem c2_rerun_idempotent (codeExists : String → Bool)
    (entries : List PricingEntry) (pfx : String) (skus : List RawSku)
    (h1 : ∀ e ∈ entries, codeExists e.morpheus_code = true)
    (h2 : ∀ sku ∈ skus,
      codeExists (create_price_data_code pfx sku.skuId) = true) :
    sync_prices_loop codeExists entries = (0, entries.length) ∧
      create_prices_main_loop pfx codeExists skus =
        ⟨0, skus.length, 0⟩ := by
  constructor
  · have := sync_prices_foldl_all_exist codeExists entries (0, 0) h1
    simpa [sync_prices_loop] using this
  · have := create_prices_foldl_all_exist pfx codeExists skus ⟨0, 0, 0⟩ h2
    simpa [create_prices_main_loop] using this

/-- A pricing entry for the C2 witness instantiation. -/
def c2_entry : PricingEntry :=
  { name := "IOH-CP - N1 Predefined Instance Core"
    morpheus_code := "ioh-cp.gcp.cores.n1.asia_southeast2.AAAA-1111"
    priceTypeCode := "cores"
    priceUnit := "hour"
    price := 1
    cost := 1
    currency := "USD"
    incurCharges := true
    active := true
    region := "asia-southeast2"
    machine_family := "n1"
    sku_id := "AAAA-1111"
    service_name := "Compute Engine"
    category := ⟨"Compute", "CPU", "OnDemand"⟩
    description := "N1 Predefined Instance Core" }

/-- A raw SKU for the C2 witness instantiation. -/
def c2_raw_sku : RawSku :=
  { skuId := "AAAA-1111"
    description := "N1 Predefined Instance Core"
    category := ⟨"Compute", "CPU", "OnDemand"⟩
    pricingInfo := [⟨[⟨⟨some 0, some 31611000, false⟩⟩], some "hour"⟩] }

/-- C2, witness: with a lookup that reports every code as existing, both
loops over a singleton record produce zero creates and one skip. -/
theorem c2_witness :
    sync_prices_loop (fun _ => true) [c2_entry] = (0, 1) ∧
      create_prices_main_loop "IOH-CP" (fun _ => true) [c2_raw_sku] =
        ⟨0, 1, 0⟩ :=
  c2_rerun_idempotent (fun _ => true) [c2_entry] "IOH-CP" [c2_raw_sku]
    (by intro e _; rfl) (by intro sku _; rfl)


/-! ## C3 -/

/-- A first-match chain lands in `l` when every rule result and the
fallback are in `l`. -/
theorem first_rule_match_mem (rules : List (Bool × String))
    (l : List String) (ho : "other" ∈ l) (hr : ∀ p ∈ rules, p.2 ∈ l) :
    first_rule_match rules ∈ l := by
  induction rules with
  | nil => exact ho
  | cons p rest ih =>
    show (if p.1 then p.2 else first_rule_match rest) ∈ l
    split
    · exact hr p (by simp)
    · exact ih (fun q hq => hr q (by simp [hq]))

/-- When no rule condition holds, a first-match chain returns the
fallback. -/
theorem first_rule_match_no_hit (rules : List (Bool × String))
    (h : rules.any (fun p => p.1) = false) :
    first_rule_match rules = "other" := by
  induction rules with
  | nil => rfl
  | cons p rest ih =>
    simp only [List.any_cons, Bool.or_eq_false_iff] at h
    show (if p.1 then p.2 else first_rule_match rest) = "other"
    simp [h.1, ih h.2]

/-- Every bucket returned by `categorize_sku` is one of the six bucket
names. -/
theorem categorize_sku_mem (sku : NormalizedSku) :
    categorize_sku sku ∈
      (["storage", "compute", "network", "database", "ai_ml", "other"] :
        List String) := by
  refine first_rule_match_mem _ _ (by simp) ?_
  intro p hp
  simp only [categorize_rules, List.mem_cons, List.not_mem_nil,
    or_false] at hp
  rcases hp with rfl | rfl | rfl | rfl | rfl | rfl | rfl | rfl | rfl | rfl |
    rfl | rfl | rfl | rfl | rfl <;> simp

/-- When no categorization rule fires, the bucket is the `"other"`
fallback. -/
theorem categorize_sku_fallback (sku : NormalizedSku)
    (h : categorize_sku_hit sku = false) : categorize_sku sku = "other" :=
  first_rule_match_no_hit (categorize_rules sku) h

/-- C3: classification is deterministic and total — `classify_price_type`
and `categorize_sku` are total Lean functions on every normalized SKU
record (so identical inputs always give the single same outcome and no
exception is possible), the price type is always one of the four type
codes, the bucket is always one of the six bucket names, and when no
categorization rule matches the bucket is the `"other"` fallback. -/
theorem c3_classification_total (sku : NormalizedSku) :
    (classify_price_type sku).1 ∈
        (["storage", "cores", "memory", "software"] : List String) ∧
      categorize_sku sku ∈
        (["storage", "compute", "network", "database", "ai_ml", "other"] :
          List String) ∧
      (categorize_sku_hit sku = false → categorize_sku sku = "other") :=
  ⟨classify_price_type_fst_mem sku, categorize_sku_mem sku,
    categorize_sku_fallback sku⟩

/-- A normalized SKU matching no categorization rule at all. -/
def unmatchedSku : NormalizedSku :=
  { sku_id := "DDDD-4444"
    description := "zzz"
    service_name := "zzz"
    service_id := "zzz"
    category := ⟨"", "", ""⟩
    pricing_unit := "hour"
    rate := ⟨some 1, some 0, false⟩ }

/-- C3, witness: the totality theorem at a concrete SKU that matches no
rule, discharging the fallback hypothesis — its bucket is `"other"`. -/
theorem c3_witness :
    (classify_price_type unmatchedSku).1 ∈
        (["storage", "cores", "memory", "software"] : List String) ∧
      categorize_sku unmatchedSku ∈
        (["storage", "compute", "network", "database", "ai_ml", "other"] :
          List String) ∧
      (categorize_sku_hit unmatchedSku = false →
        categorize_sku unmatchedSku = "other") :=
  c3_classification_total unmatchedSku

/-! ## C6 -/

/-- The attempt outcomes `make_request` retries on: a transport exception
or a server-error response (status `>= 500`). -/
def attempt_retryable : AttemptOutcome → Prop
  | .exn => True
  | .resp s => 500 ≤ s

/-- Every sleep `make_request` ever performs lasts exactly 1 second. -/
theorem make_request_go_sleeps (outcomes : Nat → AttemptOutcome)
    (maxRetries : Nat) :
    ∀ (fuel attempt d : Nat),
      d ∈ (make_request_go outcomes maxRetries attempt fuel).2 → d = 1 := by
  intro fuel
  induction fuel with
  | zero =>
    intro attempt d hd
    simp [make_request_go] at hd
  | succ n ih =>
    intro attempt d hd
    unfold make_request_go at hd
    rcases ho : outcomes attempt with _ | s <;> rw [ho] at hd <;>
      dsimp only at hd
    · split at hd
      · rw [List.mem_cons] at hd
        rcases hd with rfl | hd
        · rfl
        · exact ih (attempt + 1) d hd
      · exact ih (attempt + 1) d hd
    · split at hd
      · simp at hd
      · split at hd
        · rw [List.mem_cons] at hd
          rcases hd with rfl | hd
          · rfl
          · exact ih (attempt + 1) d hd
        · exact ih (attempt + 1) d hd

/-- When every attempt fails retryably, `make_request` never returns a
response: the attempt budget is exhausted and the call raises. -/
theorem make_request_go_exhausts (outcomes : Nat → AttemptOutcome)
    (maxRetries : Nat)
    (hret : ∀ i, attempt_retryable (outcomes i)) :
    ∀ (fuel attempt : Nat),
      (make_request_go outcomes maxRetries attempt fuel).1 = none := by
  intro fuel
  induction fuel with
  | zero => intro attempt; rfl
  | succ n ih =>
    intro attempt
    unfold make_request_go
    have hr := hret attempt
    rcases ho : outcomes attempt with _ | s <;> rw [ho] at hr <;>
      dsimp only
    · split <;> exact ih (attempt + 1)
    · have hs : ¬ s < 500 := by
        simp only [attempt_retryable] at hr
        omega
      simp only [hs, if_false]
      split <;> exact ih (attempt + 1)

/-- `_retry_api_call` on a constant `HttpError` (status irrelevant):
re-raises after sleeping `2 ^ attempt` seconds before each retry. -/
theorem retry_api_call_go_http (status maxRetries : Nat) :
    ∀ (fuel attempt : Nat), attempt + fuel = maxRetries → 1 ≤ fuel →
      retry_api_call_go (fun _ => .httpError status) maxRetries attempt
          fuel =
        (.raisedHttp, (List.range' attempt (fuel - 1)).map (2 ^ ·)) := by
  intro fuel
  induction fuel with
  | zero => omega
  | succ n ih =>
    intro attempt hsum _
    unfold retry_api_call_go
    dsimp only
    rcases Nat.eq_zero_or_pos n with rfl | hn
    · have hlast : attempt = maxRetries - 1 := by omega
      simp [hlast]
    · have hlast : ¬ attempt = maxRetries - 1 := by omega
      rw [ih (attempt + 1) (by omega) hn]
      simp only [hlast, if_false]
      have hr : n + 1 - 1 = (n - 1) + 1 := by omega
      rw [hr, List.range'_succ]
      simp

/-- C6 (amended): `make_request` returns ANY response with status below
500 — client errors included — immediately from the first attempt; it
retries transport failures and server errors (status >= 500) up to the
attempt budget with a CONSTANT 1-second wait between attempts (not an
exponential `2 ^ attempt` backoff), raising a terminal error once the
budget is exhausted; `_retry_api_call` in discover_gcp_skus.py does use
the `2 ^ attempt` backoff but retries EVERY HttpError — its status,
including 4xx, is never inspected — re-raising on the last attempt. -/
theorem c6_retry_behavior (o₁ o₂ o₃ : Nat → AttemptOutcome)
    (m₁ m₂ m₃ s status gm : Nat)
    (h0 : o₁ 0 = .resp s) (hs : s < 500) (hm : 1 ≤ m₁)
    (hret : ∀ i, attempt_retryable (o₂ i)) (hg : 1 ≤ gm) :
    make_request_run o₁ m₁ = (some s, []) ∧
      (make_request_run o₂ m₂).1 = none ∧
      (∀ d ∈ (make_request_run o₃ m₃).2, d = 1) ∧
      retry_api_call_run (fun _ => .httpError status) gm =
        (.raisedHttp, (List.range' 0 (gm - 1)).map (2 ^ ·)) := by
  refine ⟨?_, make_request_go_exhausts o₂ m₂ hret m₂ 0,
    fun d hd => make_request_go_sleeps o₃ m₃ m₃ 0 d hd,
    retry_api_call_go_http status gm gm 0 (by omega) hg⟩
  obtain ⟨m, rfl⟩ : ∃ m, m₁ = m + 1 := ⟨m₁ - 1, by omega⟩
  unfold make_request_run make_request_go
  rw [h0]
  simp [hs]

/-- C6, counterexample: on a server that always answers 500, `make_request`
raises after its 3 attempts having slept `[1, 1]` — constant seconds, not
the claimed exponential `[2 ^ 0, 2 ^ 1] = [1, 2]`; and `_retry_api_call`
does NOT return a 404 `HttpError` immediately: it retries it twice
(sleeping `[1, 2]`) and then re-raises. -/
theorem c6_counterexample :
    make_request_run (fun _ => AttemptOutcome.resp 500) 3 =
        (none, [1, 1]) ∧
      ([1, 1] : List Nat) ≠ [2 ^ 0, 2 ^ 1] ∧
      retry_api_call_run (fun _ => GcpAttemptOutcome.httpError 404) 3 =
        (.raisedHttp, [1, 2]) ∧
      ([1, 2] : List Nat) ≠ [] := by
  refine ⟨by decide, by decide, by decide, by decide⟩

/-- C6, witness: the amended theorem instantiated — a 404 comes back
immediately with no sleeps, a server that always answers 503 exhausts the
budget, a sleep of the always-failing transport run lasts 1 second, and
the 404-`HttpError` retry run re-raises after backoffs `2 ^ 0, 2 ^ 1`. -/
theorem c6_witness :
    make_request_run (fun _ => AttemptOutcome.resp 404) 3 =
        (some 404, []) ∧
      (make_request_run (fun _ => AttemptOutcome.resp 503) 3).1 = none ∧
      (1 : Nat) = 1 ∧
      retry_api_call_run (fun _ => GcpAttemptOutcome.httpError 404) 3 =
        (.raisedHttp, (List.range' 0 2).map (2 ^ ·)) := by
  have h := c6_retry_behavior (fun _ => AttemptOutcome.resp 404)
    (fun _ => AttemptOutcome.resp 503) (fun _ => AttemptOutcome.exn)
    3 3 3 404 404 3 rfl (by decide) (by decide)
    (fun i => by simp [attempt_retryable]) (by decide)
  exact ⟨h.1, h.2.1, h.2.2.1 1 (by decide), h.2.2.2⟩
